import Mathlib

/-
Verification development for the oresat-c3-watchdog daemon
(src/main.rs). The Rust program is embedded shallowly: each fallible
syscall boundary (GPIO writes, timerfd get and set, UDP recv) is driven
by an explicit environment record, and each Rust method becomes a pure
Lean function over the component state plus that environment.
-/

/-- Embedding of nix TimeSpec: seconds and nanoseconds, compared
lexicographically (the derived Ord of the underlying struct). -/
structure TimeSpec where
  sec : Int
  nsec : Int
deriving DecidableEq, Repr

/-- Boolean strict order on TimeSpec, mirroring the Ord instance used by
the comparison remaining < ping in Pingee.on_ping. -/
def TimeSpec.ltb (a b : TimeSpec) : Bool :=
  a.sec < b.sec || (a.sec == b.sec && a.nsec < b.nsec)

/-- Embedding of nix timerfd Expiration (src/main.rs lines 15-19). Only
the OneShot variant is used by the program, but the others exist in the
type, which is what makes the pattern match in on_ping meaningful. -/
inductive Expiration where
  | oneShot (t : TimeSpec)
  | interval (t : TimeSpec)
  | intervalDelayed (d t : TimeSpec)
deriving DecidableEq, Repr

/-- INHIBIT constant (line 30): OneShot(TimeSpec::new(120, 0)). -/
def INHIBIT : Expiration := .oneShot ⟨120, 0⟩

/-- PING timeout constant (line 31): OneShot(TimeSpec::new(30, 0)). -/
def PING_TIMEOUT : Expiration := .oneShot ⟨30, 0⟩

/-- PET_ON constant (line 32): OneShot(TimeSpec::new(0, 100_000_000)). -/
def PET_ON : Expiration := .oneShot ⟨0, 100000000⟩

/-- PET_OFF constant (line 33): OneShot(TimeSpec::new(0, 900_000_000)). -/
def PET_OFF : Expiration := .oneShot ⟨0, 900000000⟩

/-- GPIO_LABEL constant (line 35). -/
def GPIO_LABEL : String := "PET_WDT"

/-- GPIO_CONSUMER constant (line 38). -/
def GPIO_CONSUMER : String := "C3_Watchdog"

/-- Embedding of std iter CycleIter over a finite iterator: orig is the
clone of the original iterator, cur the position in the current pass. -/
structure CycleIter (α : Type) where
  orig : List α
  cur : List α
deriving DecidableEq, Repr

/-- Rust CycleIter next: yield from the current pass; when it is exhausted,
restart from the clone of the original iterator; yield none only when
that clone is itself empty. -/
def CycleIter.next {α : Type} (c : CycleIter α) : Option α × CycleIter α :=
  match c.cur with
  | a :: rest => (some a, ⟨c.orig, rest⟩)
  | [] =>
    match c.orig with
    | [] => (none, c)
    | a :: rest => (some a, ⟨c.orig, rest⟩)

/-- State of a Petter (lines 54-58): the level most recently requested
on the GPIO line (the WatchdogLine level as tracked by the daemon), the
current one-shot arming of its timerfd, and the cyclic toggle iterator. -/
structure PetterState where
  level : Bool
  timerArm : Option Expiration
  values : CycleIter (Bool × Expiration)
deriving DecidableEq, Repr

/-- The two-element array fed to the cycle in Petter::new (line 76). -/
def petPair : List (Bool × Expiration) := [(true, PET_ON), (false, PET_OFF)]

/-- The PetterState produced by a successful Petter::new (lines 73-77):
line requested as output initialized to false, timer created unarmed,
cycle over the pair. -/
def newPetter : PetterState :=
  { level := false, timerArm := none, values := ⟨petPair, petPair⟩ }

/-- Environment for one call to Petter::pet: whether the GPIO write
(set_values, line 83) fails and whether the timer arm (timer.set,
line 84) fails. -/
structure PetEnv where
  writeFails : Bool
  armFails : Bool
deriving DecidableEq, Repr

/-- Environment in which both syscalls succeed. -/
def okEnv : PetEnv := { writeFails := false, armFails := false }

/-- Embedding of Petter::pet (lines 80-91): advance the cycle; on some,
write the level then arm the timer for the paired duration, propagating
either failure; on none, bail with the unexpected-iterator error. -/
def Petter.pet (p : PetterState) (env : PetEnv) : Except String PetterState :=
  match CycleIter.next p.values with
  | (some (value, duration), values') =>
    if env.writeFails then .error "gpio set_values failed"
    else if env.armFails then .error "timerfd set failed"
    else .ok { level := value, timerArm := some duration, values := values' }
  | (none, _) => .error "Unexpected iterator in Petter"

/-- Embedding of Petter::on_pet (lines 94-97): consume the timer
expiration (timer.wait, fallible), then pet. -/
def Petter.on_pet (p : PetterState) (waitFails : Bool) (env : PetEnv) :
    Except String PetterState :=
  if waitFails then .error "timerfd wait failed"
  else Petter.pet p env

/-- Embedding of the Drop impl for Petter (lines 100-104): a
best-effort set_values([false]) whose result is discarded with a let
binding. As in pet, a failed GPIO write performs no level update, so
when the write fails the state is returned unchanged; the discarded
result means drop is total and can never itself propagate a failure,
which is why it returns PetterState and not Except. -/
def Petter.drop (p : PetterState) (writeFails : Bool) : PetterState :=
  if writeFails then p else { p with level := false }

/-- One GPIO side effect visible at the chip boundary during Petter
construction: requesting the line as an output with an initial level
(Options::output + values + consumer, lines 68-71). -/
inductive GpioAction where
  | requestOutput (initLevel : Bool) (consumer : String)
deriving DecidableEq, Repr

/-- Environment for Petter::new (lines 61-78): whether Chip::new
succeeds, the result of reading the line label (line_info + name), and
whether request_lines and TimerFd::new succeed. -/
structure NewEnv where
  chipOpenOk : Bool
  lineInfoResult : Except String String
  requestOk : Bool
  timerOk : Bool

/-- Embedding of Petter::new (lines 61-78), paired with the list of GPIO
output actions performed: open the chip, read the label, ensure it
equals the expected label, request the line as output initialized false,
create the timer, return the initial state. The requestOutput action is
recorded exactly when request_lines succeeds. -/
def Petter.new (env : NewEnv) (gpio_label : String) :
    Except String PetterState × List GpioAction :=
  if env.chipOpenOk = false then (.error "Failed to get GPIO chip", [])
  else
    match env.lineInfoResult with
    | .error m => (.error m, [])
    | .ok read_label =>
      if read_label = gpio_label then
        if env.requestOk = false then (.error "Failed to get GPIO pin", [])
        else if env.timerOk = false then
          (.error "timerfd create failed", [.requestOutput false GPIO_CONSUMER])
        else (.ok newPetter, [.requestOutput false GPIO_CONSUMER])
      else
        (.error ("Invalid GPIO LINE label, expected " ++ gpio_label ++
          ", found " ++ read_label), [])

/-- Result of one recv_from call on the nonblocking heartbeat socket:
a datagram was read, the call would block, or it failed otherwise. -/
inductive RecvResult where
  | dgram
  | wouldBlock
  | err (e : String)
deriving DecidableEq, Repr

/-- Environment for one call to Pingee::on_ping: the successive results
recv_from will return, and whether timer.get and timer.set fail. An
exhausted list means the nonblocking socket reports would-block. -/
structure PingEnv where
  recvs : List RecvResult
  getFails : Bool
  setFails : Bool

/-- The drain loop of Pingee::on_ping (lines 123-129): read until a
would-block result, ignoring datagram content; any other error is
returned with the ping-socket context. Returns the recv results left
unconsumed after the loop stops. -/
def drainRecv : List RecvResult → Except String (List RecvResult)
  | [] => .ok []
  | .dgram :: rest => drainRecv rest
  | .wouldBlock :: rest => .ok rest
  | .err e :: _ => .error ("Ping socket read failed: " ++ e)

/-- Embedding of Pingee::on_ping (lines 121-140): drain the socket, read
the timer, and if the remaining one-shot time is below PING_TIMEOUT,
re-arm to PING_TIMEOUT; if the timer is not in an armed one-shot state,
bail. Returns the handler result together with the timer state after
the call. -/
def Pingee.on_ping (timerState : Option Expiration) (env : PingEnv) :
    Except String Unit × Option Expiration :=
  match drainRecv env.recvs with
  | .error m => (.error m, timerState)
  | .ok _ =>
    if env.getFails then (.error "timerfd get failed", timerState)
    else
      match timerState, PING_TIMEOUT with
      | some (.oneShot remaining), .oneShot ping =>
        if TimeSpec.ltb remaining ping then
          if env.setFails then (.error "timerfd set failed", timerState)
          else (.ok (), some PING_TIMEOUT)
        else (.ok (), timerState)
      | _, _ => (.error "Unexpected ping timeout timer", timerState)

/-- The timer state of a freshly constructed Pingee (lines 112-119):
armed once to the INHIBIT grace magnitude. -/
def pingeeInitTimer : Option Expiration := some INHIBIT

/-- The four registered poll tokens of main (lines 190-193) plus the
catch-all arm of the dispatch match. -/
inductive Token where
  | PING
  | PET
  | TIMEOUT
  | SIGNAL
  | other (n : Nat)
deriving DecidableEq, Repr

/-- Environment for one dispatched readiness event: the ping handler
environment, and the pet handler wait flag and environment. -/
structure EventEnv where
  pingEnv : PingEnv
  waitFails : Bool
  petEnv : PetEnv

/-- Outcome of dispatching one readiness event in the main loop
(lines 209-220): keep running with updated state, break with the ping
timeout error, break with Ok after a signal, propagate a handler error
through the question-mark operator, or hit the unreachable arm. -/
inductive StepResult where
  | running (petter : PetterState) (pingTimer : Option Expiration)
  | timeoutExit
  | signalExit
  | handlerFailure (msg : String)
  | unreachableHit
deriving DecidableEq, Repr

/-- Embedding of the dispatch match of the reactor loop (lines 211-218):
PING runs Pingee::on_ping, PET runs Petter::on_pet, TIMEOUT breaks with
the Ping timeout error, SIGNAL breaks with Ok, anything else is
unreachable. A handler error terminates the loop via the question-mark
operator. -/
def reactorStep (petter : PetterState) (pingTimer : Option Expiration)
    (tok : Token) (env : EventEnv) : StepResult :=
  match tok with
  | .PING =>
    match Pingee.on_ping pingTimer env.pingEnv with
    | (.ok _, t) => .running petter t
    | (.error m, _) => .handlerFailure m
  | .PET =>
    match Petter.on_pet petter env.waitFails env.petEnv with
    | .ok p => .running p pingTimer
    | .error m => .handlerFailure m
  | .TIMEOUT => .timeoutExit
  | .SIGNAL => .signalExit
  | .other _ => .unreachableHit

/-- True exactly when an Except value is an error. -/
def isError {α : Type} : Except String α → Bool
  | .error _ => true
  | .ok _ => false

/-- The trace of Petter states under repeated successful pets from the
freshly constructed state: petSeq n is the state after n calls to pet,
each with both syscalls succeeding. -/
def petSeq : Nat → PetterState
  | 0 => newPetter
  | n + 1 =>
    match Petter.pet (petSeq n) okEnv with
    | .ok p => p
    | .error _ => petSeq n

/-- The Petter state after an odd number of successful pets: active
level written, timer armed for PET_ON, cycle positioned before the
inactive element. -/
def stateA : PetterState :=
  { level := true, timerArm := some PET_ON,
    values := ⟨petPair, [(false, PET_OFF)]⟩ }

/-- The Petter state after a positive even number of successful pets:
inactive level written, timer armed for PET_OFF, current pass of the
cycle exhausted. -/
def stateB : PetterState :=
  { level := false, timerArm := some PET_OFF, values := ⟨petPair, []⟩ }

theorem pet_newPetter : Petter.pet newPetter okEnv = .ok stateA := rfl

theorem pet_stateA : Petter.pet stateA okEnv = .ok stateB := rfl

theorem pet_stateB : Petter.pet stateB okEnv = .ok stateA := rfl

/-- Closed form of the trace of successful pets: odd positions are in
stateA, positive even positions in stateB. -/
theorem petSeq_closed (k : Nat) :
    petSeq (2 * k + 1) = stateA ∧ petSeq (2 * k + 2) = stateB := by
  induction k with
  | zero => exact ⟨rfl, rfl⟩
  | succ k ih =>
    have h1 : 2 * (k + 1) + 1 = (2 * k + 2) + 1 := by ring
    have h2 : 2 * (k + 1) + 2 = (2 * k + 2) + 2 := by ring
    constructor
    · rw [h1, petSeq, ih.2, pet_stateB]
    · rw [h2]
      show petSeq ((2 * k + 2 + 1) + 1) = stateB
      rw [petSeq]
      have h3 : petSeq (2 * k + 2 + 1) = stateA := by
        rw [petSeq, ih.2, pet_stateB]
      rw [h3, pet_stateA]

/-- Every state after at least one successful pet is stateA or stateB. -/
theorem petSeq_shape (n : Nat) :
    petSeq (n + 1) = stateA ∨ petSeq (n + 1) = stateB := by
  rcases Nat.even_or_odd n with he | ho
  · obtain ⟨k, hk⟩ := he
    left
    have h : n + 1 = 2 * k + 1 := by omega
    rw [h]
    exact (petSeq_closed k).1
  · obtain ⟨k, hk⟩ := ho
    right
    have h : n + 1 = 2 * k + 2 := by omega
    rw [h]
    exact (petSeq_closed k).2

/-- C1. For every sequence of sequential calls to pet after
construction, the level written to the WatchdogLine strictly alternates
between active and inactive, and the first call writes the active
level: the pet at step n succeeds and yields the traced state, and the
level after the call numbered n + 1 is active exactly when n is even,
which makes the first call (n = 0) active and consecutive levels
opposite. -/
theorem c1_pet_level_alternates (n : Nat) :
    Petter.pet (petSeq n) okEnv = .ok (petSeq (n + 1)) ∧
    (petSeq (n + 1)).level = decide (n % 2 = 0) := by
  rcases Nat.even_or_odd n with he | ho
  · obtain ⟨k, hk⟩ := he
    have hn1 : petSeq (n + 1) = stateA := by
      have h : n + 1 = 2 * k + 1 := by omega
      rw [h]
      exact (petSeq_closed k).1
    have hmod : n % 2 = 0 := by omega
    refine ⟨?_, by rw [hn1, hmod]; rfl⟩
    cases k with
    | zero =>
      have h0 : n = 0 := by omega
      rw [h0] at hn1 ⊢
      rw [hn1]
      exact pet_newPetter
    | succ j =>
      have hB : petSeq n = stateB := by
        have h : n = 2 * j + 2 := by omega
        rw [h]
        exact (petSeq_closed j).2
      rw [hB, hn1]
      exact pet_stateB
  · obtain ⟨k, hk⟩ := ho
    have hA : petSeq n = stateA := by
      have h : n = 2 * k + 1 := by omega
      rw [h]
      exact (petSeq_closed k).1
    have hn1 : petSeq (n + 1) = stateB := by
      have h : n + 1 = 2 * k + 2 := by omega
      rw [h]
      exact (petSeq_closed k).2
    have hmod : n % 2 = 1 := by omega
    refine ⟨?_, by rw [hn1, hmod]; rfl⟩
    rw [hA, hn1]
    exact pet_stateA

/-- C5. Every pet that writes the active level arms the pet timer for
exactly PET_ON (100 ms), and every pet that writes the inactive level
arms it for exactly PET_OFF (900 ms): after any call in the trace the
armed duration is determined by the level just written. -/
theorem c5_duration_matches_level (n : Nat) :
    (petSeq (n + 1)).timerArm =
      some (if (petSeq (n + 1)).level then PET_ON else PET_OFF) := by
  rcases petSeq_shape n with h | h <;> rw [h] <;> rfl

/-- C4, counterexample. The claim that the level is inactive after
every destruction path fails when the best-effort finalization write
itself fails: dropping the Petter in stateA (level active after one
pet) with the GPIO write failing leaves the level active, since the
Drop impl merely swallows the write error. -/
theorem c4_drop_write_failure_counterexample :
    ¬ ((Petter.drop stateA true).level = false) := by
  decide

/-- C4, amended. The WatchdogLine level is inactive immediately after
Petter construction succeeds; on every destruction path finalization
performs a best-effort inactive write that never itself propagates a
failure (drop is total, returning a state for every write outcome), the
level is inactive whenever that write succeeds, and when it fails the
state is left unchanged rather than corrupted. -/
theorem c4_line_low_on_new_and_drop :
    newPetter.level = false ∧
    (∀ p : PetterState, (Petter.drop p false).level = false) ∧
    (∀ (p : PetterState) (w : Bool),
      (Petter.drop p w).level = false ∨ Petter.drop p w = p) := by
  refine ⟨rfl, fun p => rfl, fun p w => ?_⟩
  cases w with
  | false => exact Or.inl rfl
  | true => exact Or.inr rfl

/-- When the cycle yields an element, a pet error can only come from the
GPIO write or the timer arm, and its message is never the bail
message of the unreachable branch. -/
theorem pet_error_cases (p : PetterState) (env : PetEnv) (m : String)
    (v : Bool) (d : Expiration) (vs : CycleIter (Bool × Expiration))
    (hnext : CycleIter.next p.values = (some (v, d), vs))
    (herr : Petter.pet p env = .error m) :
    (env.writeFails = true ∨ env.armFails = true) ∧
    m ≠ "Unexpected iterator in Petter" := by
  unfold Petter.pet at herr
  rw [hnext] at herr
  cases hw : env.writeFails with
  | true =>
    rw [hw] at herr
    simp only [if_true] at herr
    refine ⟨Or.inl rfl, ?_⟩
    have hm : m = "gpio set_values failed" := by
      cases herr
      rfl
    rw [hm]
    decide
  | false =>
    rw [hw] at herr
    simp only [if_false, Bool.false_eq_true] at herr
    cases ha : env.armFails with
    | true =>
      rw [ha] at herr
      simp only [if_true] at herr
      refine ⟨Or.inr rfl, ?_⟩
      have hm : m = "timerfd set failed" := by
        cases herr
        rfl
      rw [hm]
      decide
    | false =>
      rw [ha] at herr
      simp at herr

/-- C9. From any state reachable by successful pets, the cycle iterator
always yields a value, so the bail branch of pet is unreachable and an
error from pet can only come from the GPIO write or the timer arm. -/
theorem c9_pet_bail_unreachable (n : Nat) :
    (CycleIter.next (petSeq n).values).1.isSome = true ∧
    ∀ (env : PetEnv) (m : String), Petter.pet (petSeq n) env = .error m →
      (env.writeFails = true ∨ env.armFails = true) ∧
      m ≠ "Unexpected iterator in Petter" := by
  have hshape : petSeq n = newPetter ∨ petSeq n = stateA ∨ petSeq n = stateB := by
    cases n with
    | zero => exact Or.inl rfl
    | succ k =>
      rcases petSeq_shape k with h | h
      · exact Or.inr (Or.inl h)
      · exact Or.inr (Or.inr h)
  rcases hshape with h | h | h <;> rw [h]
  · exact ⟨rfl, fun env m herr => pet_error_cases newPetter env m
      true PET_ON ⟨petPair, [(false, PET_OFF)]⟩ rfl herr⟩
  · exact ⟨rfl, fun env m herr => pet_error_cases stateA env m
      false PET_OFF ⟨petPair, []⟩ rfl herr⟩
  · exact ⟨rfl, fun env m herr => pet_error_cases stateB env m
      true PET_ON ⟨petPair, [(false, PET_OFF)]⟩ rfl herr⟩

theorem c9_pet_bail_unreachable_witness :
    ((PetEnv.mk true false).writeFails = true ∨
      (PetEnv.mk true false).armFails = true) ∧
    "gpio set_values failed" ≠ "Unexpected iterator in Petter" :=
  (c9_pet_bail_unreachable 0).2 (PetEnv.mk true false)
    "gpio set_values failed" rfl

/-- C6. If the chip opens and the label read back from the line does not
equal the expected label, Petter construction fails with the label
error and the action list is empty: the line is never requested and no
output value is ever written. -/
theorem c6_label_mismatch_fails_before_request (env : NewEnv)
    (gpio_label read_label : String)
    (hopen : env.chipOpenOk = true)
    (hinfo : env.lineInfoResult = .ok read_label)
    (hne : read_label ≠ gpio_label) :
    Petter.new env gpio_label =
      (.error ("Invalid GPIO LINE label, expected " ++ gpio_label ++
        ", found " ++ read_label), []) := by
  unfold Petter.new
  rw [hinfo]
  simp [hopen, hne]

theorem c6_label_mismatch_witness :
    Petter.new (NewEnv.mk true (.ok "WRONG") true true) GPIO_LABEL =
      (.error ("Invalid GPIO LINE label, expected " ++ GPIO_LABEL ++
        ", found " ++ "WRONG"), []) :=
  c6_label_mismatch_fails_before_request
    (NewEnv.mk true (.ok "WRONG") true true) GPIO_LABEL "WRONG"
    rfl rfl (by decide)

/-- C2. A heartbeat arriving while the countdown remaining time is at
least the steady-state magnitude (30 s) succeeds without changing the
timer: given a drain that ends in would-block, a readable timer, and a
remaining one-shot time not below PING_TIMEOUT, on_ping returns Ok and
the timer state is unchanged. -/
theorem c2_ping_no_effect_when_ge (r : TimeSpec) (env : PingEnv)
    (rest : List RecvResult)
    (hdrain : drainRecv env.recvs = .ok rest)
    (hget : env.getFails = false)
    (hge : TimeSpec.ltb r ⟨30, 0⟩ = false) :
    Pingee.on_ping (some (.oneShot r)) env =
      (.ok (), some (.oneShot r)) := by
  unfold Pingee.on_ping
  rw [hdrain]
  simp [hget, PING_TIMEOUT, hge]

theorem c2_ping_no_effect_witness :
    Pingee.on_ping (some (.oneShot ⟨115, 0⟩))
        (PingEnv.mk [RecvResult.dgram, RecvResult.wouldBlock] false false) =
      (.ok (), some (.oneShot ⟨115, 0⟩)) :=
  c2_ping_no_effect_when_ge ⟨115, 0⟩
    (PingEnv.mk [RecvResult.dgram, RecvResult.wouldBlock] false false)
    [] rfl rfl (by decide)

/-- C3. A heartbeat arriving while the countdown remaining time is
strictly below the steady-state magnitude re-arms the timer to exactly
PING_TIMEOUT: given a drain that ends in would-block, a readable timer,
a successful re-arm, and a remaining one-shot time below PING_TIMEOUT,
on_ping returns Ok and the timer is armed to PING_TIMEOUT. -/
theorem c3_ping_rearms_when_lt (r : TimeSpec) (env : PingEnv)
    (rest : List RecvResult)
    (hdrain : drainRecv env.recvs = .ok rest)
    (hget : env.getFails = false)
    (hset : env.setFails = false)
    (hlt : TimeSpec.ltb r ⟨30, 0⟩ = true) :
    Pingee.on_ping (some (.oneShot r)) env = (.ok (), some PING_TIMEOUT) := by
  unfold Pingee.on_ping
  rw [hdrain]
  simp [hget, hset, PING_TIMEOUT, hlt]

theorem c3_ping_rearms_witness :
    Pingee.on_ping (some (.oneShot ⟨20, 0⟩))
        (PingEnv.mk [RecvResult.dgram, RecvResult.wouldBlock] false false) =
      (.ok (), some PING_TIMEOUT) :=
  c3_ping_rearms_when_lt ⟨20, 0⟩
    (PingEnv.mk [RecvResult.dgram, RecvResult.wouldBlock] false false)
    [] rfl rfl rfl (by decide)

/-- C10. If the heartbeat handler runs while the inactivity timer is not
in an armed one-shot state (disarmed, or armed as an interval), the
handler bails with the unexpected-timer error instead of re-arming, and
the timer state is unchanged. -/
theorem c10_ping_bails_when_not_oneshot (t : Option Expiration)
    (env : PingEnv) (rest : List RecvResult)
    (hdrain : drainRecv env.recvs = .ok rest)
    (hget : env.getFails = false)
    (hnotarmed : ∀ r : TimeSpec, t ≠ some (.oneShot r)) :
    Pingee.on_ping t env = (.error "Unexpected ping timeout timer", t) := by
  unfold Pingee.on_ping
  rw [hdrain]
  rcases t with _ | e
  · simp [hget, PING_TIMEOUT]
  · cases e with
    | oneShot r => exact absurd rfl (hnotarmed r)
    | interval r => simp [hget, PING_TIMEOUT]
    | intervalDelayed d r => simp [hget, PING_TIMEOUT]

theorem c10_ping_bails_witness :
    Pingee.on_ping none (PingEnv.mk [] false false) =
      (.error "Unexpected ping timeout timer", none) :=
  c10_ping_bails_when_not_oneshot none (PingEnv.mk [] false false)
    [] rfl rfl (fun r h => by cases h)

/-- C7. One dispatch of the reactor loop terminates with the Timeout
failure outcome exactly when the inactivity-timer token is dispatched,
terminates with the Signaled success outcome exactly when the signal
token is dispatched, and a ping or pet token either keeps the loop
running or propagates a handler error, never producing either terminal
outcome directly. -/
theorem c7_terminal_events (p : PetterState) (t : Option Expiration)
    (tok : Token) (env : EventEnv) :
    (reactorStep p t tok env = .timeoutExit ↔ tok = .TIMEOUT) ∧
    (reactorStep p t tok env = .signalExit ↔ tok = .SIGNAL) ∧
    ((tok = .PING ∨ tok = .PET) →
      (∃ q u, reactorStep p t tok env = .running q u) ∨
      (∃ m, reactorStep p t tok env = .handlerFailure m)) := by
  cases tok with
  | PING =>
    rcases hping : Pingee.on_ping t env.pingEnv with ⟨r, u⟩
    cases r with
    | error m =>
      refine ⟨?_, ?_, fun _ => Or.inr ⟨m, ?_⟩⟩ <;> simp [reactorStep, hping]
    | ok a =>
      refine ⟨?_, ?_, fun _ => Or.inl ⟨p, u, ?_⟩⟩ <;> simp [reactorStep, hping]
  | PET =>
    rcases hpet : Petter.on_pet p env.waitFails env.petEnv with m | q
    · refine ⟨?_, ?_, fun _ => Or.inr ⟨m, ?_⟩⟩ <;> simp [reactorStep, hpet]
    · refine ⟨?_, ?_, fun _ => Or.inl ⟨q, t, ?_⟩⟩ <;> simp [reactorStep, hpet]
  | TIMEOUT => refine ⟨by simp [reactorStep], by simp [reactorStep], by simp⟩
  | SIGNAL => refine ⟨by simp [reactorStep], by simp [reactorStep], by simp⟩
  | other k => refine ⟨by simp [reactorStep], by simp [reactorStep], by simp⟩

theorem c7_terminal_events_witness :
    reactorStep newPetter pingeeInitTimer Token.TIMEOUT
      (EventEnv.mk (PingEnv.mk [] false false) false okEnv) =
      StepResult.timeoutExit :=
  (c7_terminal_events newPetter pingeeInitTimer Token.TIMEOUT
    (EventEnv.mk (PingEnv.mk [] false false) false okEnv)).1.mpr rfl

/-- C8, counterexample. With no queued datagram (recv immediately
would-blocks), the timer readable (getFails false) and the re-arm
available (setFails false), but the inactivity timer disarmed, on_ping
nevertheless returns an error; so the handler erring is not equivalent
to a socket failure or a timer read or re-arm failure. -/
theorem c8_error_iff_counterexample :
    ¬ ((isError
          (Pingee.on_ping none
            (PingEnv.mk [RecvResult.wouldBlock] false false)).1 = true) ↔
        (isError (drainRecv [RecvResult.wouldBlock]) = true ∨
         (PingEnv.mk [RecvResult.wouldBlock] false false).getFails = true ∨
         (PingEnv.mk [RecvResult.wouldBlock] false false).setFails = true)) := by
  decide

/-- C8, amended. The handler drains every queued datagram up to the
would-block result; a socket error short-circuits the call with the
timer untouched; and on_ping errs exactly when the socket read fails
other than would-block, or the timer read fails, or the timer is not in
an armed one-shot state, or the remaining time is below PING_TIMEOUT
and the re-arm fails. -/
theorem c8_drain_and_error_conditions :
    (∀ (n : Nat) (rest : List RecvResult),
      drainRecv (List.replicate n RecvResult.dgram ++
        RecvResult.wouldBlock :: rest) = .ok rest) ∧
    (∀ (t : Option Expiration) (env : PingEnv) (m : String),
      drainRecv env.recvs = .error m →
        Pingee.on_ping t env = (.error m, t)) ∧
    (∀ (t : Option Expiration) (env : PingEnv),
      isError (Pingee.on_ping t env).1 = true ↔
        (isError (drainRecv env.recvs) = true ∨ env.getFails = true ∨
         (∀ r : TimeSpec, t ≠ some (.oneShot r)) ∨
         (∃ r : TimeSpec, t = some (.oneShot r) ∧
           TimeSpec.ltb r ⟨30, 0⟩ = true ∧ env.setFails = true))) := by
  refine ⟨?_, ?_, ?_⟩
  · intro n rest
    induction n with
    | zero => rfl
    | succ k ih => simpa [List.replicate_succ, drainRecv] using ih
  · intro t env m h
    simp [Pingee.on_ping, h]
  · intro t env
    rcases hd : drainRecv env.recvs with m | rest
    · simp [Pingee.on_ping, hd, isError]
    · cases hg : env.getFails with
      | true => simp [Pingee.on_ping, hd, hg, isError]
      | false =>
        rcases t with _ | e
        · simp [Pingee.on_ping, hd, hg, isError, PING_TIMEOUT]
        · cases e with
          | oneShot r =>
            cases hlt : TimeSpec.ltb r ⟨30, 0⟩ with
            | true =>
              cases hs : env.setFails with
              | true =>
                refine iff_of_true ?_ (Or.inr (Or.inr (Or.inr
                  ⟨r, rfl, hlt, rfl⟩)))
                simp [Pingee.on_ping, hd, hg, hlt, hs, isError,
                  PING_TIMEOUT]
              | false =>
                refine iff_of_false ?_ ?_
                · simp [Pingee.on_ping, hd, hg, hlt, hs, isError,
                    PING_TIMEOUT]
                · rintro (h | h | h | ⟨r1, hr1, hlt1, hs1⟩)
                  · simp [isError] at h
                  · simp at h
                  · exact h r rfl
                  · simp at hs1
            | false =>
              refine iff_of_false ?_ ?_
              · simp [Pingee.on_ping, hd, hg, hlt, isError, PING_TIMEOUT]
              · rintro (h | h | h | ⟨r1, hr1, hlt1, hs1⟩)
                · simp [isError] at h
                · simp at h
                · exact h r rfl
                · have hr : r1 = r := by
                    simp at hr1
                    exact hr1.symm
                  rw [hr, hlt] at hlt1
                  cases hlt1
          | interval r =>
            simp [Pingee.on_ping, hd, hg, isError, PING_TIMEOUT]
          | intervalDelayed d r =>
            simp [Pingee.on_ping, hd, hg, isError, PING_TIMEOUT]

theorem c8_drain_and_error_witness :
    Pingee.on_ping none (PingEnv.mk [RecvResult.err "boom"] false false) =
      (.error "Ping socket read failed: boom", none) :=
  c8_drain_and_error_conditions.2.1 none
    (PingEnv.mk [RecvResult.err "boom"] false false)
    "Ping socket read failed: boom" rfl
